import Mathlib

/-!
Shallow embedding of `examples/getting-started/app/main.py`: a minimal
Flask service that answers `GET /` with a greeting plus pod and cluster
identity resolved once at startup from two mounted files and one
environment variable.
-/

namespace GettingStarted

/-- A filesystem state: maps a path to `some content` when the file at
that path can be opened and fully read as text, and to `none` when any
failure occurs there (absence, permission, I/O, decoding). -/
abbrev Fs := String → Option String

/-- A process environment: maps a variable name to `some value` when the
variable is set, `none` when it is absent. -/
abbrev Env := String → Option String

/-- The three module-level identity values of `main.py` (lines 5-7); the
Identity Snapshot of the specification. -/
structure Snapshot where
  pod_name : String
  pod_namespace : String
  cluster_id : String
  deriving Repr, DecidableEq

/-- `os.environ.get(key, default)`: the value of the variable when it is
set, the default otherwise. -/
def environGet (env : Env) (key dflt : String) : String :=
  (env key).getD dflt

/-- Module import-time initialization (`main.py` lines 5-7): both pod
fields start as "unknown"; `cluster_id` is read from `MEMBER_CLUSTER_ID`
with default "unknown". -/
def initSnapshot (env : Env) : Snapshot :=
  { pod_name := "unknown"
    pod_namespace := "unknown"
    cluster_id := environGet env "MEMBER_CLUSTER_ID" "unknown" }

/-- The `__main__` file-read block (`main.py` lines 19-25): a single
`try` covers both reads in order, name first, then namespace; the bare
`except: pass` catches a failure at either point, keeping the
assignments already made and suppressing the error. -/
def readPodInfo (fs : Fs) (s : Snapshot) : Snapshot :=
  match fs "/etc/podinfo/name" with
  | none => s
  | some nameContent =>
      let s1 : Snapshot := { s with pod_name := nameContent }
      match fs "/etc/podinfo/namespace" with
      | none => s1
      | some nsContent => { s1 with pod_namespace := nsContent }

/-- Process startup: module initialization followed by the `__main__`
file-read block, all before `app.run` begins accepting connections. -/
def startup (fs : Fs) (env : Env) : Snapshot :=
  readPodInfo fs (initSnapshot env)

/-- An HTTP response; the JSON object body is kept as an ordered list of
string key/value pairs. -/
structure HttpResponse where
  status : Nat
  fields : List (String × String)
  deriving Repr, DecidableEq

/-- Modelled from the spec: Flask `jsonify` (library code, not part of
this repository) serializes its keyword arguments as a JSON object of
string values whose keys appear in call-site order, returned with HTTP
status 200 and content type application/json. -/
def jsonify (fields : List (String × String)) : HttpResponse :=
  { status := 200, fields := fields }

/-- Rendering of one `"key": "value"` member of a JSON object body. -/
def renderField (kv : String × String) : String :=
  "\"" ++ kv.1 ++ "\": \"" ++ kv.2 ++ "\""

/-- Rendering of a JSON object body from its ordered fields. -/
def renderBody (fields : List (String × String)) : String :=
  "\x7b" ++ String.intercalate ", " (fields.map renderField) ++ "\x7d"

/-- The `hello_world` handler (`main.py` lines 9-16): the one route
`GET /`, returning the constant message and the three snapshot fields. -/
def hello_world (s : Snapshot) : HttpResponse :=
  jsonify [("message", "Hello World!"),
           ("pod_name", s.pod_name),
           ("pod_namespace", s.pod_namespace),
           ("cluster_id", s.cluster_id)]

/-- An incoming HTTP request, reduced to what the app inspects. -/
structure Request where
  method : String
  path : String
  deriving Repr, DecidableEq

/-- The running server state: exactly the snapshot captured at startup;
request handling has nothing else to touch. -/
structure ServerState where
  snapshot : Snapshot
  deriving Repr, DecidableEq

/-- Modelled from the spec: the framework default response for any
path or method other than `GET /` (not customized by the application,
out of scope). -/
def frameworkDefault : HttpResponse :=
  { status := 404, fields := [] }

/-- Dispatch of one request: `GET /` goes to `hello_world`; anything
else falls through to the framework default. State is unchanged. -/
def dispatch (st : ServerState) (r : Request) : HttpResponse × ServerState :=
  if r.method = "GET" ∧ r.path = "/" then (hello_world st.snapshot, st)
  else (frameworkDefault, st)

/-- The server loop: handle a list of requests in order, threading the
server state through. -/
def run : ServerState → List Request → List HttpResponse × ServerState
  | st, [] => ([], st)
  | st, r :: rs =>
      let step := dispatch st r
      let rest := run step.2 rs
      (step.1 :: rest.1, rest.2)

/-! Concrete filesystem and environment fixtures used as witnesses and
counterexample inputs. -/

/-- A filesystem on which neither identity file is readable. -/
def fsNone : Fs := fun _ => none

/-- A filesystem on which both identity files are readable; the name
file content carries a trailing newline. -/
def fsBoth : Fs := fun p =>
  if p = "/etc/podinfo/name" then some "pod-A\n"
  else if p = "/etc/podinfo/namespace" then some "ns-1" else none

/-- A filesystem on which only the name file is readable. -/
def fsOnlyName : Fs := fun p =>
  if p = "/etc/podinfo/name" then some "pod-A" else none

/-- A filesystem on which only the namespace file is readable. -/
def fsOnlyNamespace : Fs := fun p =>
  if p = "/etc/podinfo/namespace" then some "ns-1" else none

/-- A filesystem on which only the namespace file is readable, its
content ending in a newline. -/
def fsOnlyNamespaceNl : Fs := fun p =>
  if p = "/etc/podinfo/namespace" then some "ns-B\n" else none

/-- An environment with no variables set. -/
def envUnset : Env := fun _ => none

/-- An environment with MEMBER_CLUSTER_ID set to "cluster-7". -/
def envCluster7 : Env := fun k =>
  if k = "MEMBER_CLUSTER_ID" then some "cluster-7" else none

/-- An environment with MEMBER_CLUSTER_ID set to the empty string. -/
def envEmptyValue : Env := fun k =>
  if k = "MEMBER_CLUSTER_ID" then some "" else none

/-! Helper lemmas shared between claims. -/

/-- Dispatching one request leaves the server state unchanged. -/
theorem dispatch_state (st : ServerState) (r : Request) :
    (dispatch st r).2 = st := by
  unfold dispatch
  split <;> rfl

/-- Running any request list leaves the server state unchanged. -/
theorem run_state (st : ServerState) (rs : List Request) :
    (run st rs).2 = st := by
  induction rs with
  | nil => rfl
  | cons r rs ih => simp [run, dispatch_state, ih]

/-- Every response in a run is a function of its request and the initial
state alone. -/
theorem run_responses (st : ServerState) (rs : List Request) :
    (run st rs).1 = rs.map (fun r => (dispatch st r).1) := by
  induction rs with
  | nil => rfl
  | cons r rs ih => simp [run, dispatch_state, ih]

/-- Startup never changes the cluster identifier set at module
initialization. -/
theorem startup_cluster_id (fs : Fs) (env : Env) :
    (startup fs env).cluster_id = environGet env "MEMBER_CLUSTER_ID" "unknown" := by
  unfold startup readPodInfo
  cases h1 : fs "/etc/podinfo/name" with
  | none => rfl
  | some c =>
      cases h2 : fs "/etc/podinfo/namespace" with
      | none => rfl
      | some c2 => rfl

/-! Claim theorems. -/

/-- C1 counterexample: with /etc/podinfo/name unreadable while
/etc/podinfo/namespace is readable with content "ns-1", startup leaves
`pod_namespace` at "unknown", not the namespace file content, refuting
the claimed independence of the two acquisitions. -/
theorem reads_not_independent_cex :
    fsOnlyNamespace "/etc/podinfo/name" = none ∧
    fsOnlyNamespace "/etc/podinfo/namespace" = some "ns-1" ∧
    (startup fsOnlyNamespace envUnset).pod_namespace = "unknown" ∧
    (startup fsOnlyNamespace envUnset).pod_namespace ≠ "ns-1" := by
  refine ⟨by decide, by decide, by decide, by decide⟩

/-- C1 (amended): the two acquisitions are sequential inside one guard,
not independent: if the name file is unreadable the namespace read is
never attempted and `pod_namespace` stays "unknown" regardless of the
namespace file; conversely a readable name file always sets `pod_name`
to its content, whatever happens to the namespace read afterwards. -/
theorem reads_sequential_one_guard (fs : Fs) (env : Env) :
    (fs "/etc/podinfo/name" = none →
      (startup fs env).pod_name = "unknown" ∧
      (startup fs env).pod_namespace = "unknown") ∧
    (∀ c, fs "/etc/podinfo/name" = some c →
      (startup fs env).pod_name = c) := by
  constructor
  · intro h
    simp [startup, readPodInfo, initSnapshot, h]
  · intro c h
    unfold startup readPodInfo
    rw [h]
    cases h2 : fs "/etc/podinfo/namespace" <;> rfl

/-- C1 witness: applying the amended theorem at the concrete input of
the counterexample. -/
theorem reads_sequential_one_guard_witness :
    (startup fsOnlyNamespace envUnset).pod_name = "unknown" ∧
    (startup fsOnlyNamespace envUnset).pod_namespace = "unknown" :=
  (reads_sequential_one_guard fsOnlyNamespace envUnset).1 (by decide)

/-- C2: for every snapshot, GET / yields status 200 and a JSON object
with exactly the four keys message, pod_name, pod_namespace, cluster_id
in that order, with message the constant "Hello World!"; at the
concrete snapshot ("p1", "ns1", "c1") the rendered body is exactly the
object given in the specification. -/
theorem response_shape (p ns c : String) :
    (hello_world ⟨p, ns, c⟩).status = 200 ∧
    (hello_world ⟨p, ns, c⟩).fields =
      [("message", "Hello World!"), ("pod_name", p),
       ("pod_namespace", ns), ("cluster_id", c)] ∧
    renderBody (hello_world ⟨"p1", "ns1", "c1"⟩).fields =
      "\x7b\"message\": \"Hello World!\", \"pod_name\": \"p1\", \"pod_namespace\": \"ns1\", \"cluster_id\": \"c1\"\x7d" := by
  refine ⟨rfl, rfl, by decide⟩

/-- C3: when neither identity file is readable, startup completes with
both pod fields equal to "unknown", and GET / reports both fields as
"unknown". -/
theorem defaults_when_no_files (fs : Fs) (env : Env)
    (hn : fs "/etc/podinfo/name" = none)
    (_hns : fs "/etc/podinfo/namespace" = none) :
    (startup fs env).pod_name = "unknown" ∧
    (startup fs env).pod_namespace = "unknown" ∧
    List.lookup "pod_name" (hello_world (startup fs env)).fields = some "unknown" ∧
    List.lookup "pod_namespace" (hello_world (startup fs env)).fields = some "unknown" := by
  have h1 : (startup fs env).pod_name = "unknown" := by
    simp [startup, readPodInfo, initSnapshot, hn]
  have h2 : (startup fs env).pod_namespace = "unknown" := by
    simp [startup, readPodInfo, initSnapshot, hn]
  refine ⟨h1, h2, ?_, ?_⟩ <;>
    simp [hello_world, jsonify, List.lookup, h1, h2]

/-- C3 witness: the theorem applied at the filesystem with no readable
files and the empty environment. -/
theorem defaults_when_no_files_witness :
    (startup fsNone envUnset).pod_name = "unknown" ∧
    (startup fsNone envUnset).pod_namespace = "unknown" ∧
    List.lookup "pod_name" (hello_world (startup fsNone envUnset)).fields = some "unknown" ∧
    List.lookup "pod_namespace" (hello_world (startup fsNone envUnset)).fields = some "unknown" :=
  defaults_when_no_files fsNone envUnset rfl rfl

/-- C4: the cluster identifier comes verbatim from MEMBER_CLUSTER_ID
when the variable is set, and is the literal "unknown" when it is
absent; the value appears unmodified in the JSON response. -/
theorem cluster_id_from_env (fs : Fs) (env : Env) :
    (∀ v, env "MEMBER_CLUSTER_ID" = some v →
      (startup fs env).cluster_id = v ∧
      List.lookup "cluster_id" (hello_world (startup fs env)).fields = some v) ∧
    (env "MEMBER_CLUSTER_ID" = none →
      (startup fs env).cluster_id = "unknown") := by
  constructor
  · intro v hv
    have h : (startup fs env).cluster_id = v := by
      rw [startup_cluster_id]
      simp [environGet, hv]
    refine ⟨h, ?_⟩
    simp [hello_world, jsonify, List.lookup, h]
  · intro hv
    rw [startup_cluster_id]
    simp [environGet, hv]

/-- C4 witness: with MEMBER_CLUSTER_ID=cluster-7 the response field is
"cluster-7"; with the variable unset it is "unknown". -/
theorem cluster_id_from_env_witness :
    (startup fsNone envCluster7).cluster_id = "cluster-7" ∧
    (startup fsNone envUnset).cluster_id = "unknown" :=
  ⟨((cluster_id_from_env fsNone envCluster7).1 "cluster-7" (by decide)).1,
   (cluster_id_from_env fsNone envUnset).2 rfl⟩

/-- C5 counterexample: the namespace file is readable with content
ending in a newline, yet `pod_namespace` after startup is "unknown" and
not the file content, because the name file is unreadable and the
shared guard aborts before the namespace read; so it is not true of
every readable identity file that its field receives the content. -/
theorem verbatim_content_cex :
    fsOnlyNamespaceNl "/etc/podinfo/namespace" = some "ns-B\n" ∧
    (startup fsOnlyNamespaceNl envUnset).pod_namespace = "unknown" ∧
    (startup fsOnlyNamespaceNl envUnset).pod_namespace ≠ "ns-B\n" := by
  refine ⟨by decide, by decide, by decide⟩

/-- C5 (amended): whenever a field is assigned from its file it receives
the entire file content verbatim with no trimming, trailing whitespace
and newlines included: a readable name file always sets `pod_name` to
its full content, and when the name file is readable a readable
namespace file sets `pod_namespace` to its full content. -/
theorem verbatim_content_on_read (fs : Fs) (env : Env) :
    (∀ c, fs "/etc/podinfo/name" = some c →
      (startup fs env).pod_name = c) ∧
    (∀ cn cns, fs "/etc/podinfo/name" = some cn →
      fs "/etc/podinfo/namespace" = some cns →
      (startup fs env).pod_namespace = cns) := by
  constructor
  · intro c h
    unfold startup readPodInfo
    rw [h]
    cases h2 : fs "/etc/podinfo/namespace" <;> rfl
  · intro cn cns hn hns
    unfold startup readPodInfo
    rw [hn, hns]

/-- C5 witness: with the name file containing a trailing newline and
both files readable, both contents land verbatim, newline included. -/
theorem verbatim_content_on_read_witness :
    (startup fsBoth envUnset).pod_name = "pod-A\n" ∧
    (startup fsBoth envUnset).pod_namespace = "ns-1" :=
  ⟨(verbatim_content_on_read fsBoth envUnset).1 "pod-A\n" (by decide),
   (verbatim_content_on_read fsBoth envUnset).2 "pod-A\n" "ns-1" (by decide) (by decide)⟩

/-- C6: the GET / handler never fails: for every snapshot it returns
status 200, and dispatch of a GET / request reaches exactly the
handler, with no error branch. -/
theorem handler_never_fails (s : Snapshot) :
    (hello_world s).status = 200 ∧
    (dispatch ⟨s⟩ ⟨"GET", "/"⟩).1 = hello_world s := by
  exact ⟨rfl, by simp [dispatch]⟩

/-- C7: determinism and idempotence: over any request sequence served
from a fixed state, every response depends only on its own request and
that fixed state, and the state never changes; so any two equal
requests in the sequence receive identical responses. -/
theorem handler_deterministic (st : ServerState) (rs : List Request) :
    (run st rs).1 = rs.map (fun r => (dispatch st r).1) ∧
    (run st rs).2 = st :=
  ⟨run_responses st rs, run_state st rs⟩

/-- C8: the Identity Snapshot is immutable process-wide: it is fixed by
`startup` before any request is served, and after serving any request
list the server still carries exactly the startup snapshot. -/
theorem snapshot_immutable (fs : Fs) (env : Env) (rs : List Request) :
    (run ⟨startup fs env⟩ rs).2.snapshot = startup fs env := by
  rw [run_state]

/-- C9: a present-but-empty MEMBER_CLUSTER_ID is used verbatim: the
cluster identifier is the empty string, not "unknown". -/
theorem empty_env_value_verbatim (fs : Fs) (env : Env)
    (h : env "MEMBER_CLUSTER_ID" = some "") :
    (startup fs env).cluster_id = "" ∧
    (startup fs env).cluster_id ≠ "unknown" := by
  have hc : (startup fs env).cluster_id = "" := by
    rw [startup_cluster_id]
    simp [environGet, h]
  exact ⟨hc, by rw [hc]; decide⟩

/-- C9 witness: the theorem at a concrete environment where the
variable is set to the empty string. -/
theorem empty_env_value_verbatim_witness :
    (startup fsNone envEmptyValue).cluster_id = "" ∧
    (startup fsNone envEmptyValue).cluster_id ≠ "unknown" :=
  empty_env_value_verbatim fsNone envEmptyValue (by decide)

/-- C10: no rollback: when the name read succeeds and the namespace
read then fails, the earlier assignment is kept: `pod_name` holds the
name file content while `pod_namespace` stays "unknown". -/
theorem no_rollback_on_later_failure (fs : Fs) (env : Env) (c : String)
    (hn : fs "/etc/podinfo/name" = some c)
    (hns : fs "/etc/podinfo/namespace" = none) :
    (startup fs env).pod_name = c ∧
    (startup fs env).pod_namespace = "unknown" := by
  unfold startup readPodInfo
  rw [hn, hns]
  exact ⟨rfl, rfl⟩

/-- C10 witness: the theorem at the filesystem where only the name file
is readable. -/
theorem no_rollback_on_later_failure_witness :
    (startup fsOnlyName envUnset).pod_name = "pod-A" ∧
    (startup fsOnlyName envUnset).pod_namespace = "unknown" :=
  no_rollback_on_later_failure fsOnlyName envUnset "pod-A" (by decide) (by decide)

end GettingStarted
